import Mathlib

/-!
Shallow embedding of the performance import & optimization loop of the
teruxa backend (packages/backend/src): the CSV row validator
(validators/index.ts, csvRowSchema), the CSV ingestion pipeline
(services/performance.service.ts, importCSV), the metrics aggregation
engine (repositories/performance.repository.ts,
getAggregatedMetricsByProject / getTopPerformers), winner selection
(identifyWinners) and iteration generation (generateIterations).

Counters are modelled as naturals, monetary amounts and derived ratios as
rationals; database state is passed explicitly; fallible service calls
return Except.  The external collaborators (csv-parse and the AI content
generator) are modelled as inputs: the parse result of the uploaded bytes
is an Except value, and the two generator capabilities are function
parameters.
-/

namespace Teruxa

/-! ### JavaScript numeric coercion (zod z.coerce.number()) -/

/-- Digit list to natural number, most significant first. -/
def digitsToNat (l : List Char) : ℕ :=
  l.foldl (fun n c => 10 * n + (c.toNat - 48)) 0

/-- Unsigned decimal numeral (digits, optional fraction part) to a
rational.  `none` when the character list is not a decimal numeral. -/
def parseDecimalChars (l : List Char) : Option ℚ :=
  let intPart := l.takeWhile Char.isDigit
  let rest := l.drop intPart.length
  match rest with
  | [] => if intPart.isEmpty then none else some (mkRat (digitsToNat intPart) 1)
  | '.' :: frac =>
      if frac.all Char.isDigit && !(intPart.isEmpty && frac.isEmpty) then
        some (mkRat (digitsToNat intPart * 10 ^ frac.length + digitsToNat frac)
          (10 ^ frac.length))
      else none
  | _ => none

/-- JavaScript `Number(string)` coercion as performed by
`z.coerce.number()` in validators/index.ts, restricted to the decimal
numerals and blank strings the CSV contract produces: surrounding
whitespace is trimmed, a blank string coerces to `0`, an optionally
signed decimal numeral coerces to its value, anything else is NaN
(`none`). -/
def trimChars (l : List Char) : List Char :=
  ((l.dropWhile Char.isWhitespace).reverse.dropWhile Char.isWhitespace).reverse

/-- See the comment above `trimChars`: the JavaScript coercion applied
to one raw string field. -/
def jsNumber (s : String) : Option ℚ :=
  let t := trimChars s.toList
  match t with
  | [] => some 0
  | '-' :: rest => (parseDecimalChars rest).map (fun q => -q)
  | '+' :: rest => parseDecimalChars rest
  | _ => parseDecimalChars t

/-- Hexadecimal digit test used by the UUID format check. -/
def isHexDigit (c : Char) : Bool :=
  c.isDigit || ('a' ≤ c && c ≤ 'f') || ('A' ≤ c && c ≤ 'F')

/-- `z.string().uuid()` format check of validators/index.ts
(`uuidSchema`): 8-4-4-4-12 hexadecimal digits separated by dashes. -/
def isUUID (s : String) : Bool :=
  let l := s.toList
  l.length == 36 &&
    (List.range 36).all (fun i =>
      if i == 8 || i == 13 || i == 18 || i == 23 then l.getD i ' ' == '-'
      else isHexDigit (l.getD i ' '))

/-! ### Row validator (validators/index.ts, csvRowSchema) -/

/-- One raw CSV record as produced by csv-parse with `columns: true`:
a string-keyed map restricted to the columns of the CSV contract.
A `none` field is an absent column (`undefined` in JavaScript). -/
structure CSVRecord where
  angle_id : Option String := none
  impressions : Option String := none
  clicks : Option String := none
  conversions : Option String := none
  spend : Option String := none
  revenue : Option String := none
  platform : Option String := none
  locale : Option String := none
  date_start : Option String := none
  date_end : Option String := none
deriving Repr, DecidableEq

/-- A validated performance row (`z.infer<typeof csvRowSchema>`). -/
structure CSVRow where
  angle_id : String
  impressions : ℕ
  clicks : ℕ
  conversions : ℕ
  spend : ℚ
  revenue : ℚ
  platform : Option String
  locale : Option String
  date_start : Option String
  date_end : Option String
deriving Repr, DecidableEq

def msgExpectedNumber : String := "Expected number, received nan"

def msgExpectedInteger : String := "Expected integer, received float"

def msgNonNegative : String := "Number must be greater than or equal to 0"

def msgInvalidUUID : String := "Invalid UUID format"

def msgRequired : String := "Required"

def msgInvalidEnum : String := "Invalid enum value"

def blankStr : String := ""

def zeroStr : String := "0"

/-- `z.coerce.number().int().min(0)` on one field of the record. -/
def coerceNonNegInt (v : Option String) : Except String ℕ :=
  match v with
  | none => .error msgExpectedNumber
  | some s =>
      match jsNumber s with
      | none => .error msgExpectedNumber
      | some q =>
          if q.den = 1 then
            if 0 ≤ q.num then .ok q.num.toNat else .error msgNonNegative
          else .error msgExpectedInteger

/-- `z.coerce.number().min(0)` on one field of the record. -/
def coerceNonNegNum (v : Option String) : Except String ℚ :=
  match v with
  | none => .error msgExpectedNumber
  | some s =>
      match jsNumber s with
      | none => .error msgExpectedNumber
      | some q => if 0 ≤ q then .ok q else .error msgNonNegative

def platformValues : List String := ["tiktok", "instagram", "youtube"]

def localeValues : List String := ["en-US", "es-ES", "fr-FR", "de-DE", "pt-BR"]

/-- Optional enumeration field (`platformSchema.optional()` /
`localeSchema.optional()`): absent is accepted, present must be in the
supported set. -/
def coerceOptionalEnum (values : List String) (v : Option String) :
    Except String (Option String) :=
  match v with
  | none => .ok none
  | some s => if s ∈ values then .ok (some s) else .error msgInvalidEnum

/-- `csvRowSchema.parse` (validators/index.ts lines 148-159): validate
one raw CSV record into a typed row or a structured error. -/
def parseCsvRow (r : CSVRecord) : Except String CSVRow := do
  let aid ← match r.angle_id with
    | none => .error msgRequired
    | some s => if isUUID s then .ok s else .error msgInvalidUUID
  let imp ← coerceNonNegInt r.impressions
  let clk ← coerceNonNegInt r.clicks
  let conv ← coerceNonNegInt r.conversions
  let sp ← coerceNonNegNum r.spend
  let rev ← coerceNonNegNum r.revenue
  let plat ← coerceOptionalEnum platformValues r.platform
  let loc ← coerceOptionalEnum localeValues r.locale
  .ok { angle_id := aid, impressions := imp, clicks := clk, conversions := conv,
        spend := sp, revenue := rev, platform := plat, locale := loc,
        date_start := r.date_start, date_end := r.date_end }

/-! ### Data model (prisma schema: angle_cards, performance_data, and
the import_batches table) -/

/-- A content variant (AngleCard row).  `st.angles` lists cards in
creation order, so `createdAt` ascending is list order. -/
structure AngleCard where
  id : String
  projectId : String
  hook : String
  problemAgitation : String
  solution : String
  cta : String
  visualDirection : Option String := none
  audioNotes : Option String := none
  estimatedDuration : Option ℕ := none
  parentAngleId : Option String := none
  generationNotes : Option String := none
  isWinner : Bool := false
deriving Repr, DecidableEq

instance : Inhabited AngleCard :=
  ⟨{ id := "", projectId := "", hook := "", problemAgitation := "",
     solution := "", cta := "" }⟩

/-- A persisted performance_data row. -/
structure StoredPerfRow where
  angleId : String
  importBatchId : String
  impressions : ℕ
  clicks : ℕ
  conversions : ℕ
  spend : ℚ
  revenue : ℚ
  platform : Option String := none
  locale : Option String := none
deriving Repr, DecidableEq

/-- An import_batches row.  `rowsTotal` is nullable in the schema
(`Int?`); `rowsProcessed`/`rowsFailed` default to 0 and `errorLog` to
`[]`. -/
structure ImportBatchRec where
  id : String
  projectId : String
  filename : String
  status : String
  rowsTotal : Option ℕ
  rowsProcessed : ℕ
  rowsFailed : ℕ
  errorLog : List (ℕ × String)
  completedAt : Option ℕ
deriving Repr, DecidableEq

/-- Database state threaded through the service operations. -/
structure DBState where
  projects : List String
  angles : List AngleCard
  batches : List ImportBatchRec
  perfRows : List StoredPerfRow
  nextId : ℕ
deriving Repr, DecidableEq

/-! ### Metrics aggregation engine
(performance.repository.ts, getAggregatedMetricsByProject lines 168-205) -/

/-- One entry of the aggregated view (`PerformanceMetricsResult`). -/
structure PerformanceMetricsResult where
  angleId : String
  hook : String
  totalImpressions : ℕ
  totalClicks : ℕ
  totalConversions : ℕ
  totalSpend : ℚ
  totalRevenue : ℚ
  ctr : ℚ
  cpa : Option ℚ
  roas : Option ℚ
deriving Repr, DecidableEq

instance : Inhabited PerformanceMetricsResult :=
  ⟨{ angleId := "", hook := "", totalImpressions := 0, totalClicks := 0,
     totalConversions := 0, totalSpend := 0, totalRevenue := 0, ctr := 0,
     cpa := none, roas := none }⟩

/-- Stable insertion into a list sorted descending by `key`: the new
element goes before the first element whose key is not larger, which is
what a stable descending comparator sort produces. -/
def insertDescBy {α : Type} (key : α → ℚ) (x : α) : List α → List α
  | [] => [x]
  | y :: ys => if key x < key y then y :: insertDescBy key x ys else x :: y :: ys

/-- Stable sort, descending by `key` (JavaScript `Array.prototype.sort`
with comparator `(a, b) => key(b) - key(a)` is a stable descending
sort). -/
def sortDescBy {α : Type} (key : α → ℚ) : List α → List α
  | [] => []
  | x :: xs => insertDescBy key x (sortDescBy key xs)

/-- The grouped aggregation of the raw SQL query for one angle card:
sum each counter over all performance rows of the card (COALESCE to 0
on the empty LEFT JOIN) and derive the guarded ratios. -/
def aggregateForAngle (rows : List StoredPerfRow) (a : AngleCard) :
    PerformanceMetricsResult :=
  let rs := rows.filter (fun r => r.angleId == a.id)
  let impressions := (rs.map (fun r => r.impressions)).sum
  let clicks := (rs.map (fun r => r.clicks)).sum
  let conversions := (rs.map (fun r => r.conversions)).sum
  let spend := (rs.map (fun r => r.spend)).sum
  let revenue := (rs.map (fun r => r.revenue)).sum
  { angleId := a.id, hook := a.hook,
    totalImpressions := impressions, totalClicks := clicks,
    totalConversions := conversions, totalSpend := spend,
    totalRevenue := revenue,
    ctr := if 0 < impressions then ((clicks : ℚ) / (impressions : ℚ)) * 100 else 0,
    cpa := if 0 < conversions then some (spend / (conversions : ℚ)) else none,
    roas := if 0 < spend then some (revenue / spend) else none }

/-- `getAggregatedMetricsByProject`: one aggregated entry per angle card
of the project (LEFT JOIN keeps cards with no performance rows), ordered
by total impressions descending. -/
def getAggregatedMetricsByProject (angles : List AngleCard)
    (rows : List StoredPerfRow) (projectId : String) :
    List PerformanceMetricsResult :=
  sortDescBy (fun m => (m.totalImpressions : ℚ))
    ((angles.filter (fun a => a.projectId == projectId)).map (aggregateForAngle rows))

/-- The ranking metric of winner selection. -/
inductive Metric
  | ctr
  | roas
  | conversions
deriving Repr, DecidableEq

/-- The sort key of `getTopPerformers`: `roas` ranks null as 0,
`conversions` ranks by the raw total. -/
def metricKey (metric : Metric) (p : PerformanceMetricsResult) : ℚ :=
  match metric with
  | .ctr => p.ctr
  | .roas => p.roas.getD 0
  | .conversions => (p.totalConversions : ℚ)

/-- `getTopPerformers` (performance.repository.ts lines 208-230): sort
the aggregated view descending by the chosen metric and take the first
`limit` entries. -/
def getTopPerformers (angles : List AngleCard) (rows : List StoredPerfRow)
    (projectId : String) (metric : Metric) (limit : ℕ) :
    List PerformanceMetricsResult :=
  (sortDescBy (metricKey metric)
    (getAggregatedMetricsByProject angles rows projectId)).take limit

/-! ### CSV ingestion pipeline (performance.service.ts, importCSV) -/

/-- The summary returned to the caller (`ImportResult` in
types/index.ts). -/
structure ImportResult where
  batchId : String
  filename : String
  rowsTotal : ℕ
  rowsProcessed : ℕ
  rowsFailed : ℕ
  errors : List (ℕ × String)
deriving Repr, DecidableEq

/-- Service-level errors (`NotFoundError`, `ValidationError`, and a
rethrown file-level failure). -/
inductive ServiceError
  | notFound (what : String)
  | validation (msg : String)
  | rethrown (msg : String)
deriving Repr, DecidableEq

/-- The argument record of one `updateImportBatch` call
(performance.repository.ts lines 72-92): each field is applied only when
present. -/
structure ImportBatchUpdate where
  status : Option String := none
  rowsProcessed : Option ℕ := none
  rowsFailed : Option ℕ := none
  errorLog : Option (List (ℕ × String)) := none
  completedAt : Option ℕ := none
deriving Repr, DecidableEq

/-- Apply one `updateImportBatch` call to a batch row: absent fields
keep their stored value. -/
def applyBatchUpdate (u : ImportBatchUpdate) (b : ImportBatchRec) :
    ImportBatchRec :=
  { b with
    status := u.status.getD b.status,
    rowsProcessed := u.rowsProcessed.getD b.rowsProcessed,
    rowsFailed := u.rowsFailed.getD b.rowsFailed,
    errorLog := u.errorLog.getD b.errorLog,
    completedAt := match u.completedAt with
      | some t => some t
      | none => b.completedAt }

def statusProcessing : String := "processing"

def statusCompleted : String := "completed"

def statusPartialStr : String := "partial"

def statusFailed : String := "failed"

def msgAngleNotFoundPre : String := "Angle "

def msgAngleNotFoundPost : String := " not found"

def msgWrongProjectPost : String := " does not belong to this project"

/-- Tag a validated row with the batch it is inserted under
(`createManyPerformanceData` input construction, importCSV lines
96-103). -/
def toStored (batchId : String) (v : CSVRow) : StoredPerfRow :=
  { angleId := v.angle_id, importBatchId := batchId,
    impressions := v.impressions, clicks := v.clicks,
    conversions := v.conversions, spend := v.spend, revenue := v.revenue,
    platform := v.platform, locale := v.locale }

/-- The per-row loop of importCSV (lines 55-93): validate each record
with the row validator, then check the referenced angle exists and
belongs to the project; each record contributes to exactly one of the
valid-row list or the error list, both kept in input order.  `rowNum`
is the spreadsheet-style row number of the first record (the first data
row is row 2). -/
def validateRecords (angles : List AngleCard) (projectId : String) :
    List CSVRecord → ℕ → List CSVRow × List (ℕ × String)
  | [], _ => ([], [])
  | rec :: rest, rowNum =>
    let vr := validateRecords angles projectId rest (rowNum + 1)
    match parseCsvRow rec with
    | .error m => (vr.1, (rowNum, m) :: vr.2)
    | .ok v =>
        match angles.find? (fun a => a.id == v.angle_id) with
        | none =>
            (vr.1, (rowNum, msgAngleNotFoundPre ++ v.angle_id ++ msgAngleNotFoundPost) :: vr.2)
        | some a =>
            if a.projectId == projectId then (v :: vr.1, vr.2)
            else (vr.1, (rowNum, msgAngleNotFoundPre ++ v.angle_id ++ msgWrongProjectPost) :: vr.2)

/-- Outcome of one importCSV call: the new database state, the list of
`updateImportBatch` calls issued (batch id and argument record, in
order), and the returned summary or thrown error. -/
structure ImportOutcome where
  state : DBState
  updateEvents : List (String × ImportBatchUpdate)
  result : Except ServiceError ImportResult
deriving Repr

instance {ε α : Type} [DecidableEq ε] [DecidableEq α] :
    DecidableEq (Except ε α) := fun a b =>
  match a, b with
  | .error e, .error f =>
      if h : e = f then .isTrue (by rw [h]) else .isFalse (by simp [h])
  | .ok x, .ok y =>
      if h : x = y then .isTrue (by rw [h]) else .isFalse (by simp [h])
  | .error _, .ok _ => .isFalse Except.noConfusion
  | .ok _, .error _ => .isFalse Except.noConfusion

instance : DecidableEq ImportOutcome := fun a b =>
  match a, b with
  | ⟨s, u, r⟩, ⟨s2, u2, r2⟩ =>
      if h : s = s2 ∧ u = u2 ∧ r = r2 then
        .isTrue (by obtain ⟨h1, h2, h3⟩ := h; rw [h1, h2, h3])
      else
        .isFalse (by
          intro he
          exact h (by cases he; exact ⟨rfl, rfl, rfl⟩))

/-- `importCSV` (performance.service.ts lines 19-142).  The csv-parse
result of the uploaded bytes is the `parseResult` input (`Except.error`
is a stream that cannot be parsed as CSV); `now` is the completion
timestamp.  The batch is created in `processing` state with no
`rowsTotal`; after the scan a single `updateImportBatch` records the
final status, counts, error list and completion timestamp (`rowsTotal`
is not part of either write). -/
def importCSV (st : DBState) (projectId filename : String)
    (parseResult : Except String (List CSVRecord)) (now : ℕ) :
    ImportOutcome :=
  if projectId ∈ st.projects then
    let batchId := "batch-" ++ toString st.nextId
    let batch : ImportBatchRec :=
      { id := batchId, projectId := projectId, filename := filename,
        status := statusProcessing, rowsTotal := none, rowsProcessed := 0,
        rowsFailed := 0, errorLog := [], completedAt := none }
    let st1 : DBState :=
      { st with batches := st.batches ++ [batch], nextId := st.nextId + 1 }
    match parseResult with
    | .error e =>
        let u : ImportBatchUpdate :=
          { status := some statusFailed, errorLog := some [(0, e)],
            completedAt := some now }
        { state := { st1 with
            batches := st1.batches.map
              (fun b => if b.id == batchId then applyBatchUpdate u b else b) },
          updateEvents := [(batchId, u)],
          result := .error (.rethrown e) }
    | .ok records =>
        let vr := validateRecords st.angles projectId records 2
        let validRows := vr.1
        let errors := vr.2
        let st2 : DBState :=
          if 0 < validRows.length then
            { st1 with perfRows := st1.perfRows ++ validRows.map (toStored batchId) }
          else st1
        let finalStatus :=
          if errors.length = 0 then statusCompleted
          else if validRows.length = 0 then statusFailed
          else statusPartialStr
        let u : ImportBatchUpdate :=
          { status := some finalStatus, rowsProcessed := some validRows.length,
            rowsFailed := some errors.length, errorLog := some errors,
            completedAt := some now }
        { state := { st2 with
            batches := st2.batches.map
              (fun b => if b.id == batchId then applyBatchUpdate u b else b) },
          updateEvents := [(batchId, u)],
          result := .ok
            { batchId := batchId, filename := filename,
              rowsTotal := records.length, rowsProcessed := validRows.length,
              rowsFailed := errors.length, errors := errors } }
  else
    { state := st, updateEvents := [], result := .error (.notFound ("Project")) }

/-! ### Winner selection (performance.service.ts, identifyWinners
lines 189-273) -/

/-- The creative content of a card handed to the AI collaborator
(`GeneratedAngle`). -/
structure GeneratedAngle where
  hook : String
  problemAgitation : String
  solution : String
  cta : String
  visualDirection : Option String := none
  audioNotes : Option String := none
  estimatedDuration : Option ℕ := none
  generationNotes : Option String := none
deriving Repr, DecidableEq

instance : Inhabited GeneratedAngle :=
  ⟨{ hook := "", problemAgitation := "", solution := "", cta := "" }⟩

/-- The metric summary attached to each winner in the pattern-analysis
input. -/
structure WinnerMetrics where
  ctr : ℚ
  roas : Option ℚ
  conversions : ℕ
deriving Repr, DecidableEq

/-- Project an AngleCard onto the content shape sent to the AI
collaborator. -/
def angleContent (a : AngleCard) : GeneratedAngle :=
  { hook := a.hook, problemAgitation := a.problemAgitation,
    solution := a.solution, cta := a.cta,
    visualDirection := a.visualDirection, audioNotes := a.audioNotes,
    estimatedDuration := a.estimatedDuration }

/-- One entry of `WinnerAnalysis.topPerformers` as assembled at the end
of identifyWinners (lines 256-269). -/
structure ScoredPerformer where
  angleId : String
  impressions : ℕ
  clicks : ℕ
  conversions : ℕ
  spend : ℚ
  revenue : ℚ
  ctr : ℚ
  cpa : Option ℚ
  roas : Option ℚ
  score : ℚ
deriving Repr, DecidableEq

/-- The result of winner selection (`WinnerAnalysis`). -/
structure WinnerAnalysis where
  topPerformers : List ScoredPerformer
  patterns : List String
  recommendations : List String
deriving Repr, DecidableEq

def msgNoPerformanceData : String :=
  "No performance data available. Import CSV data first."

/-- The winner-marking loop of identifyWinners (lines 216-219): one
`angleRepository.update(id, { isWinner: true })` per selected performer,
in selection order.  The update only ever writes `true`. -/
def markWinners (angles : List AngleCard) (ids : List String) :
    List AngleCard :=
  ids.foldl
    (fun acc winnerId =>
      acc.map (fun a => if a.id == winnerId then { a with isWinner := true } else a))
    angles

/-- The `score` field of a reported performer: the value of the chosen
metric, with a null `roas` scored as 0. -/
def scoreOf (metric : Metric) (p : PerformanceMetricsResult) : ℚ :=
  match metric with
  | .ctr => p.ctr
  | .roas => p.roas.getD 0
  | .conversions => (p.totalConversions : ℚ)

/-- `identifyWinners` (performance.service.ts lines 189-273).  The AI
pattern-analysis collaborator is the `analyze` parameter; the returned
Bool records whether it was invoked.  An empty top-performer list
returns early with the import-data recommendation and no state
change. -/
def identifyWinners (st : DBState) (projectId : String) (topN : ℕ)
    (metric : Metric)
    (analyze : List (GeneratedAngle × WinnerMetrics) → List String × List String) :
    Except ServiceError (DBState × WinnerAnalysis × Bool) :=
  if projectId ∈ st.projects then
    let tops := getTopPerformers st.angles st.perfRows projectId metric topN
    if tops.length = 0 then
      .ok (st,
        { topPerformers := [], patterns := [],
          recommendations := [msgNoPerformanceData] },
        false)
    else
      let st2 : DBState :=
        { st with angles := markWinners st.angles (tops.map (fun p => p.angleId)) }
      let winnerAngles := tops.filterMap (fun p =>
        (st2.angles.find? (fun a => a.id == p.angleId)).map (fun a =>
          (angleContent a,
            ({ ctr := p.ctr, roas := p.roas,
               conversions := p.totalConversions } : WinnerMetrics))))
      let pr := analyze winnerAngles
      .ok (st2,
        { topPerformers := tops.map (fun p =>
            { angleId := p.angleId, impressions := p.totalImpressions,
              clicks := p.totalClicks, conversions := p.totalConversions,
              spend := p.totalSpend, revenue := p.totalRevenue,
              ctr := p.ctr, cpa := p.cpa, roas := p.roas,
              score := scoreOf metric p }),
          patterns := pr.1, recommendations := pr.2 },
        true)
  else .error (.notFound ("Project"))

/-! ### Iteration generation (performance.service.ts, generateIterations
lines 275-351) -/

/-- `angleRepository.findByProjectId(projectId, { isWinner: true })`
with default pagination (page 1, limit 20) and `createdAt` descending
ordering: the winner cards of the project, newest first, at most 20. -/
def findWinnersByProjectId (st : DBState) (projectId : String) :
    List AngleCard :=
  ((st.angles.filter (fun a => a.projectId == projectId && a.isWinner)).reverse).take 20

def msgNoWinners : String :=
  "No winners identified. Run winner identification first."

def iterNotesPre : String := "Iteration based on winner "

def iterNotesMid : String := ". "

/-- The `angleRepository.create` call of the storage loop (lines
330-341): a fresh card carrying the draft content, the round-robin
parent reference and a generation note naming the parent. -/
def mkIterationAngle (projectId : String) (idNum : ℕ) (g : GeneratedAngle)
    (parent : AngleCard) : AngleCard :=
  { id := "angle-" ++ toString idNum, projectId := projectId,
    hook := g.hook, problemAgitation := g.problemAgitation,
    solution := g.solution, cta := g.cta,
    visualDirection := g.visualDirection, audioNotes := g.audioNotes,
    estimatedDuration := g.estimatedDuration,
    parentAngleId := some parent.id,
    generationNotes :=
      some (iterNotesPre ++ parent.id ++ iterNotesMid ++ (g.generationNotes.getD blankStr)),
    isWinner := false }

/-- The storage loop of generateIterations (lines 323-343): the draft at
loop index `i` is persisted with parent `winners[i % winners.length]`.
`i` is the index of the first draft in `drafts`. -/
def buildIterations (projectId : String) (baseId : ℕ)
    (winners : List AngleCard) : List GeneratedAngle → ℕ → List AngleCard
  | [], _ => []
  | g :: gs, i =>
      mkIterationAngle projectId (baseId + i) g
          (winners.getD (i % winners.length) default) ::
        buildIterations projectId baseId winners gs (i + 1)

/-- Outcome of one generateIterations call: the new database state, the
created cards or the thrown error, and how many times each AI capability
was invoked. -/
structure GenOutcome where
  state : DBState
  result : Except ServiceError (List AngleCard)
  analyzeCalls : ℕ
  generateCalls : ℕ
deriving Repr

/-- `generateIterations` (performance.service.ts lines 275-351).  The
AI collaborators are the `analyze` and `generate` parameters.  The
pattern-analysis input is the first `topN` stored winners (each with
placeholder metrics), but the round-robin parent assignment indexes the
full loaded winner list. -/
def generateIterations (st : DBState) (projectId : String)
    (topN count : ℕ)
    (analyze : List (GeneratedAngle × WinnerMetrics) → List String × List String)
    (generate : List GeneratedAngle → List String → ℕ → List GeneratedAngle) :
    GenOutcome :=
  if projectId ∈ st.projects then
    let winners := findWinnersByProjectId st projectId
    if winners.length = 0 then
      { state := st, result := .error (.validation msgNoWinners),
        analyzeCalls := 0, generateCalls := 0 }
    else
      let winnerAngles := (winners.take topN).map (fun w =>
        (angleContent w,
          ({ ctr := 0, roas := none, conversions := 0 } : WinnerMetrics)))
      let pr := analyze winnerAngles
      let drafts := generate (winnerAngles.map (fun w => w.1)) pr.1 count
      let created := buildIterations projectId st.nextId winners drafts 0
      let st2 : DBState :=
        { st with angles := st.angles ++ created,
                  nextId := st.nextId + drafts.length }
      { state := st2, result := .ok created,
        analyzeCalls := 1, generateCalls := 1 }
  else
    { state := st, result := .error (.notFound ("Project")),
      analyzeCalls := 0, generateCalls := 0 }

/-! ### Concrete example inputs used by witnesses and counterexamples -/

def pidP : String := "p"

def fnameF : String := "metrics.csv"

def uuidA : String := "550e8400-e29b-41d4-a716-446655440000"

/-- A project card with no performance data and no winner flag. -/
def cardA : AngleCard :=
  { id := uuidA, projectId := pidP, hook := "hA", problemAgitation := "pa",
    solution := "so", cta := "go" }

/-- One project, one card, no rows, no batches. -/
def st3 : DBState :=
  { projects := [pidP], angles := [cardA], batches := [], perfRows := [],
    nextId := 0 }

/-- A project with no cards at all. -/
def stEmpty : DBState :=
  { projects := [pidP], angles := [], batches := [], perfRows := [],
    nextId := 0 }

/-- An AI pattern-analysis stub returning nothing. -/
def noAnalyze :
    List (GeneratedAngle × WinnerMetrics) → List String × List String :=
  fun _ => ([], [])

/-- A content-generator stub returning `n` distinct drafts. -/
def gen5 : List GeneratedAngle → List String → ℕ → List GeneratedAngle :=
  fun _ _ n => (List.range n).map (fun j =>
    { hook := "nh" ++ toString j, problemAgitation := "npa",
      solution := "nso", cta := "ngo" })

/-- Winner card number `n` of the round-robin example. -/
def mkW (n : ℕ) : AngleCard :=
  { id := "w" ++ toString n, projectId := pidP,
    hook := "h" ++ toString n, problemAgitation := "pa", solution := "so",
    cta := "go", isWinner := true }

/-- Four flagged winners (created in order w0, w1, w2, w3). -/
def st4 : DBState :=
  { projects := [pidP], angles := [mkW 0, mkW 1, mkW 2, mkW 3],
    batches := [], perfRows := [], nextId := 100 }

/-- A well-formed CSV record for `cardA`. -/
def recOK : CSVRecord :=
  { angle_id := some uuidA, impressions := some ("10000"),
    clicks := some ("500"), conversions := some ("50"),
    spend := some ("100.50"), revenue := some ("250.00") }

/-- A record whose angle_id is not a UUID. -/
def recBad : CSVRecord :=
  { angle_id := some ("nope"), impressions := some ("1"),
    clicks := some ("1"), conversions := some ("0"), spend := some ("0"),
    revenue := some ("0") }

/-- A record whose five required numeric fields are all blank. -/
def recBlank : CSVRecord :=
  { angle_id := some uuidA, impressions := some blankStr,
    clicks := some blankStr, conversions := some blankStr,
    spend := some blankStr, revenue := some blankStr }

/-- The validated row `recBlank` is accepted as: every blank numeric
field coerced to 0. -/
def rowBlank : CSVRow :=
  { angle_id := uuidA, impressions := 0, clicks := 0, conversions := 0,
    spend := 0, revenue := 0, platform := none, locale := none,
    date_start := none, date_end := none }

/-- A stored row with positive spend and zero revenue. -/
def rowSpendOnly : StoredPerfRow :=
  { angleId := uuidA, importBatchId := "batch-x", impressions := 0,
    clicks := 0, conversions := 0, spend := 50, revenue := 0 }

/-- The aggregated entry of `cardA` over `[rowSpendOnly]`. -/
def exAggEntry : PerformanceMetricsResult :=
  (getAggregatedMetricsByProject [cardA] [rowSpendOnly] pidP).getD 0 default

/-- `st3` after its single all-zero card is marked as winner. -/
def st3Marked : DBState :=
  { st3 with angles := [{ cardA with isWinner := true }] }

/-- The all-zero top performer `identifyWinners` reports for `cardA`. -/
def zeroPerformer : ScoredPerformer :=
  { angleId := uuidA, impressions := 0, clicks := 0, conversions := 0,
    spend := 0, revenue := 0, ctr := 0, cpa := none, roas := none,
    score := 0 }

/-- The analysis `identifyWinners` returns on `st3`: one all-zero top
performer and no early-return recommendation. -/
def wa3 : WinnerAnalysis :=
  { topPerformers := [zeroPerformer], patterns := [],
    recommendations := [] }

/-- The parent-lineage field of the `i`-th created card of a
generateIterations outcome. -/
def parentOfCreated (o : GenOutcome) (i : ℕ) : Option String :=
  match o.result with
  | .ok l => (l.getD i default).parentAngleId
  | .error _ => none

/-! ### Lemmas about sorting and aggregation -/

theorem mem_insertDescBy {α : Type} (key : α → ℚ) (x a : α) (l : List α) :
    a ∈ insertDescBy key x l ↔ a = x ∨ a ∈ l := by
  induction l with
  | nil => simp [insertDescBy]
  | cons y ys ih =>
      simp only [insertDescBy]
      by_cases h : key x < key y
      · simp [h, ih]
        tauto
      · simp [h]

theorem mem_sortDescBy {α : Type} (key : α → ℚ) (a : α) (l : List α) :
    a ∈ sortDescBy key l ↔ a ∈ l := by
  induction l with
  | nil => simp [sortDescBy]
  | cons x xs ih =>
      simp [sortDescBy, mem_insertDescBy, ih]

theorem aggregateForAngle_partition (a : AngleCard) (b b1 b2 : String)
    (rs1 rs2 : List CSVRow) :
    aggregateForAngle (rs1.map (toStored b1) ++ rs2.map (toStored b2)) a =
      aggregateForAngle ((rs1 ++ rs2).map (toStored b)) a := by
  simp [aggregateForAngle, List.filter_append, List.map_append,
    List.sum_append, List.filter_map, List.map_map, Function.comp_def,
    toStored]

/-- Claim C6: aggregation is invariant under batch partitioning — the
aggregated metrics of a project are the same whether a multiset of
validated rows is ingested as one batch or split across two batches
(they differ only in the batch tag each stored row carries, which the
aggregation never reads). -/
theorem teruxa_c6_aggregation_batch_invariant (angles : List AngleCard)
    (projectId b b1 b2 : String) (rs1 rs2 : List CSVRow) :
    getAggregatedMetricsByProject angles
        (rs1.map (toStored b1) ++ rs2.map (toStored b2)) projectId =
      getAggregatedMetricsByProject angles
        ((rs1 ++ rs2).map (toStored b)) projectId := by
  unfold getAggregatedMetricsByProject
  congr 1
  exact List.map_congr_left
    (fun a _ => aggregateForAngle_partition a b b1 b2 rs1 rs2)

/-- Claim C1: every entry of the aggregated view derives its ratios by
exactly the guarded formulas of the source: `ctr` is
clicks/impressions*100 when impressions are positive and 0 otherwise,
`cpa` is spend/conversions when conversions are positive and null
otherwise, `roas` is revenue/spend when spend is positive and null
otherwise; in particular positive spend with zero revenue gives
`roas = 0`, not null. -/
theorem teruxa_c1_aggregated_ratio_guards (angles : List AngleCard)
    (rows : List StoredPerfRow) (projectId : String)
    (m : PerformanceMetricsResult)
    (hm : m ∈ getAggregatedMetricsByProject angles rows projectId) :
    m.ctr = (if 0 < m.totalImpressions then
        ((m.totalClicks : ℚ) / (m.totalImpressions : ℚ)) * 100 else 0) ∧
    m.cpa = (if 0 < m.totalConversions then
        some (m.totalSpend / (m.totalConversions : ℚ)) else none) ∧
    m.roas = (if 0 < m.totalSpend then
        some (m.totalRevenue / m.totalSpend) else none) ∧
    (0 < m.totalSpend → m.totalRevenue = 0 → m.roas = some 0) := by
  unfold getAggregatedMetricsByProject at hm
  rw [mem_sortDescBy] at hm
  obtain ⟨a, _, rfl⟩ := List.mem_map.mp hm
  refine ⟨rfl, rfl, rfl, fun hs hr => ?_⟩
  simp only [aggregateForAngle] at hs hr ⊢
  rw [hr]
  simp [hs]

/-- Witness for C1 at a concrete aggregate with positive spend and zero
revenue. -/
theorem teruxa_c1_witness :
    exAggEntry.ctr = (if 0 < exAggEntry.totalImpressions then
        ((exAggEntry.totalClicks : ℚ) / (exAggEntry.totalImpressions : ℚ)) * 100 else 0) ∧
    exAggEntry.cpa = (if 0 < exAggEntry.totalConversions then
        some (exAggEntry.totalSpend / (exAggEntry.totalConversions : ℚ)) else none) ∧
    exAggEntry.roas = (if 0 < exAggEntry.totalSpend then
        some (exAggEntry.totalRevenue / exAggEntry.totalSpend) else none) ∧
    (0 < exAggEntry.totalSpend → exAggEntry.totalRevenue = 0 →
      exAggEntry.roas = some 0) :=
  teruxa_c1_aggregated_ratio_guards [cardA] [rowSpendOnly] pidP exAggEntry
    (by
      rw [show getAggregatedMetricsByProject [cardA] [rowSpendOnly] pidP
          = [exAggEntry] from rfl]
      exact List.mem_singleton.mpr rfl)

/-! ### Lemmas about the ingestion loop -/

/-- Each scanned record lands in exactly one of the valid-row list and
the error list. -/
theorem validateRecords_length (angles : List AngleCard)
    (projectId : String) (recs : List CSVRecord) (n : ℕ) :
    (validateRecords angles projectId recs n).1.length +
        (validateRecords angles projectId recs n).2.length = recs.length := by
  induction recs generalizing n with
  | nil => simp [validateRecords]
  | cons rec rest ih =>
      have h := ih (n + 1)
      simp only [validateRecords]
      split
      · simp only [List.length_cons]; omega
      · split
        · simp only [List.length_cons]; omega
        · split
          · simp only [List.length_cons]; omega
          · simp only [List.length_cons]; omega

/-- Claim C2: for every CSV import that parses, the terminal batch
status written by the single update is `failed` when zero rows were
accepted and at least one data row existed, `completed` when zero row
errors occurred (the empty file being `completed` with zero processed
and zero failed), `partial` when both accepted rows and errors exist,
and the returned summary always satisfies
rowsProcessed + rowsFailed = rowsTotal. -/
theorem teruxa_c2_import_status_counts (st : DBState)
    (projectId filename : String) (records : List CSVRecord) (now : ℕ)
    (hp : projectId ∈ st.projects) :
    ∃ r u,
      (importCSV st projectId filename (.ok records) now).result = .ok r ∧
      (importCSV st projectId filename (.ok records) now).updateEvents =
        [(r.batchId, u)] ∧
      r.rowsProcessed + r.rowsFailed = r.rowsTotal ∧
      (r.rowsProcessed = 0 → records ≠ [] → u.status = some statusFailed) ∧
      (r.rowsFailed = 0 → u.status = some statusCompleted) ∧
      (records = [] → u.status = some statusCompleted ∧
        r.rowsProcessed = 0 ∧ r.rowsFailed = 0) ∧
      (0 < r.rowsProcessed → 0 < r.rowsFailed →
        u.status = some statusPartialStr) := by
  have hlen := validateRecords_length st.angles projectId records 2
  unfold importCSV
  rw [if_pos hp]
  dsimp only
  refine ⟨_, _, rfl, rfl, hlen, ?_, ?_, ?_, ?_⟩
  · intro h0 hne
    dsimp only at h0
    have hne2 : records.length ≠ 0 := by
      simpa using hne
    have hve : (validateRecords st.angles projectId records 2).2.length ≠ 0 := by
      omega
    dsimp only
    rw [if_neg hve, if_pos h0]
  · intro h0
    dsimp only at h0
    dsimp only
    rw [if_pos h0]
  · intro h0
    subst h0
    simp only [validateRecords]
    simp
  · intro h1 h2
    dsimp only at h1 h2
    have hve : ¬ (validateRecords st.angles projectId records 2).2.length = 0 := by
      omega
    have hvp : ¬ (validateRecords st.angles projectId records 2).1.length = 0 := by
      omega
    dsimp only
    rw [if_neg hve, if_neg hvp]

/-- Witness for C2 on a concrete two-row CSV (one accepted row, one
invalid row). -/
theorem teruxa_c2_witness :
    ∃ r u,
      (importCSV st3 pidP fnameF (.ok [recOK, recBad]) 7).result = .ok r ∧
      (importCSV st3 pidP fnameF (.ok [recOK, recBad]) 7).updateEvents =
        [(r.batchId, u)] ∧
      r.rowsProcessed + r.rowsFailed = r.rowsTotal ∧
      (r.rowsProcessed = 0 → [recOK, recBad] ≠ ([] : List CSVRecord) →
        u.status = some statusFailed) ∧
      (r.rowsFailed = 0 → u.status = some statusCompleted) ∧
      ([recOK, recBad] = ([] : List CSVRecord) →
        u.status = some statusCompleted ∧
        r.rowsProcessed = 0 ∧ r.rowsFailed = 0) ∧
      (0 < r.rowsProcessed → 0 < r.rowsFailed →
        u.status = some statusPartialStr) :=
  teruxa_c2_import_status_counts st3 pidP fnameF [recOK, recBad] 7 (by decide)

/-- Neither batch write of importCSV touches the stored `rowsTotal`
column: updating any batch list with an `updateImportBatch` argument
leaves every `rowsTotal` unchanged. -/
theorem map_rowsTotal_update (bs : List ImportBatchRec) (bid : String)
    (u : ImportBatchUpdate) :
    ((bs.map (fun b => if b.id == bid then applyBatchUpdate u b else b)).map
        (fun b => b.rowsTotal)) = bs.map (fun b => b.rowsTotal) := by
  rw [List.map_map]
  exact List.map_congr_left (fun b _ => by
    by_cases h : b.id = bid <;> simp [h, applyBatchUpdate])

/-- Counterexample to claim C5: importing one valid record persists a
batch whose `rowsTotal` is null, while the returned summary carries
total 1 — the total row count is never written to the ImportBatch
record. -/
theorem teruxa_c5_counterexample :
    (importCSV st3 pidP fnameF (.ok [recOK]) 7).state.batches.length = 1 ∧
    ((importCSV st3 pidP fnameF (.ok [recOK]) 7).state.batches.head?.map
        (fun b => b.rowsTotal)) = some none ∧
    (importCSV st3 pidP fnameF (.ok [recOK]) 7).result.map
        (fun r => r.rowsTotal) = .ok 1 := by
  refine ⟨by decide, by decide, by decide⟩

/-- Claim C5 as amended: when an import finishes ingestion (whether the
stream parsed or not), exactly one `updateImportBatch` call is issued;
it persists a terminal status, the error list and the completion
timestamp (and, when the stream parsed, the processed and failed
counts) — but the total row count is NOT persisted: the batch row's
`rowsTotal` remains null and the total is only returned in the
summary. -/
theorem teruxa_c5_terminal_write_once (st : DBState)
    (projectId filename : String)
    (parseResult : Except String (List CSVRecord)) (now : ℕ)
    (hp : projectId ∈ st.projects) :
    ∃ bid u,
      (importCSV st projectId filename parseResult now).updateEvents =
        [(bid, u)] ∧
      u.status.isSome = true ∧
      u.errorLog.isSome = true ∧
      u.completedAt = some now ∧
      ((importCSV st projectId filename parseResult now).state.batches.map
          (fun b => b.rowsTotal)) =
        st.batches.map (fun b => b.rowsTotal) ++ [none] ∧
      (∀ records, parseResult = .ok records →
        u.rowsProcessed.isSome = true ∧ u.rowsFailed.isSome = true) := by
  cases parseResult with
  | error e =>
      unfold importCSV
      rw [if_pos hp]
      dsimp only
      refine ⟨_, _, rfl, rfl, rfl, rfl, ?_, ?_⟩
      · rw [map_rowsTotal_update, List.map_append]
        rfl
      · intro records h
        cases h
  | ok records =>
      unfold importCSV
      rw [if_pos hp]
      dsimp only
      refine ⟨_, _, rfl, rfl, rfl, rfl, ?_, fun _ _ => ⟨rfl, rfl⟩⟩
      by_cases hv :
          0 < (validateRecords st.angles projectId records 2).1.length
      · rw [if_pos hv]
        dsimp only
        rw [map_rowsTotal_update, List.map_append]
        rfl
      · rw [if_neg hv]
        dsimp only
        rw [map_rowsTotal_update, List.map_append]
        rfl

/-- Witness for C5 (amended) on a concrete one-row import. -/
theorem teruxa_c5_witness :
    ∃ bid u,
      (importCSV st3 pidP fnameF (.ok [recOK]) 7).updateEvents =
        [(bid, u)] ∧
      u.status.isSome = true ∧
      u.errorLog.isSome = true ∧
      u.completedAt = some 7 ∧
      ((importCSV st3 pidP fnameF (.ok [recOK]) 7).state.batches.map
          (fun b => b.rowsTotal)) =
        st3.batches.map (fun b => b.rowsTotal) ++ [none] ∧
      (∀ records, (Except.ok [recOK] : Except String (List CSVRecord)) =
          .ok records →
        u.rowsProcessed.isSome = true ∧ u.rowsFailed.isSome = true) :=
  teruxa_c5_terminal_write_once st3 pidP fnameF (.ok [recOK]) 7 (by decide)

def parseFailMsg : String := "Invalid Record Length"

/-- Claim C8: when the uploaded byte stream cannot be parsed as CSV,
the import issues exactly one batch write, marking the batch `failed` with
the single synthetic error entry (row 0, the parser message), rethrows
the error, and persists no performance rows. -/
theorem teruxa_c8_parse_failure (st : DBState)
    (projectId filename e : String) (now : ℕ)
    (hp : projectId ∈ st.projects) :
    (importCSV st projectId filename (.error e) now).result =
      .error (.rethrown e) ∧
    (importCSV st projectId filename (.error e) now).state.perfRows =
      st.perfRows ∧
    ∃ bid,
      (importCSV st projectId filename (.error e) now).updateEvents =
        [(bid, { status := some statusFailed, errorLog := some [(0, e)],
                 completedAt := some now })] := by
  unfold importCSV
  rw [if_pos hp]
  exact ⟨rfl, rfl, _, rfl⟩

/-- Witness for C8 on a concrete malformed upload. -/
theorem teruxa_c8_witness :
    (importCSV st3 pidP fnameF (.error parseFailMsg) 7).result =
      .error (.rethrown parseFailMsg) ∧
    (importCSV st3 pidP fnameF (.error parseFailMsg) 7).state.perfRows =
      st3.perfRows ∧
    ∃ bid,
      (importCSV st3 pidP fnameF (.error parseFailMsg) 7).updateEvents =
        [(bid, { status := some statusFailed,
                 errorLog := some [(0, parseFailMsg)],
                 completedAt := some 7 })] :=
  teruxa_c8_parse_failure st3 pidP fnameF parseFailMsg 7 (by decide)

/-- Counterexample to claim C3: a campaign with one variant and zero
performance rows does NOT get the empty-list early return — the LEFT
JOIN keeps the data-less variant as an all-zero aggregate, so
identifyWinners reports it as a top performer (and even flags it as a
winner), with no import-data recommendation. -/
theorem teruxa_c3_counterexample :
    identifyWinners st3 pidP 3 .ctr noAnalyze = .ok (st3Marked, wa3, true) ∧
    wa3.topPerformers ≠ [] ∧
    wa3.recommendations ≠ [msgNoPerformanceData] := by
  refine ⟨by decide, by decide, by decide⟩

/-- Claim C3 as amended: the empty `topPerformers` early return (one
recommendation advising import, no failure, no state change, no AI call)
happens exactly for campaigns with zero variants; a campaign whose
variants merely lack performance rows instead has its all-zero variants
ranked and returned. -/
theorem teruxa_c3_empty_campaign_short_circuit (st : DBState)
    (pid : String) (topN : ℕ) (metric : Metric)
    (analyze : List (GeneratedAngle × WinnerMetrics) → List String × List String)
    (hp : pid ∈ st.projects)
    (hv : st.angles.filter (fun a => a.projectId == pid) = []) :
    identifyWinners st pid topN metric analyze =
      .ok (st, { topPerformers := [], patterns := [],
                 recommendations := [msgNoPerformanceData] }, false) := by
  unfold identifyWinners
  rw [if_pos hp]
  have ht : getTopPerformers st.angles st.perfRows pid metric topN = [] := by
    unfold getTopPerformers getAggregatedMetricsByProject
    rw [hv]
    simp [sortDescBy]
  rw [ht]
  simp

/-- Witness for C3 (amended) on a campaign with no variants. -/
theorem teruxa_c3_witness :
    identifyWinners stEmpty pidP 3 .ctr noAnalyze =
      .ok (stEmpty, { topPerformers := [], patterns := [],
                      recommendations := [msgNoPerformanceData] }, false) :=
  teruxa_c3_empty_campaign_short_circuit stEmpty pidP 3 .ctr noAnalyze
    (by decide) (by decide)

/-- The winner-marking loop is the pointwise map that flags exactly the
selected ids. -/
theorem markWinners_eq_map (angles : List AngleCard) (ids : List String) :
    markWinners angles ids =
      angles.map (fun a =>
        if a.id ∈ ids then { a with isWinner := true } else a) := by
  induction ids generalizing angles with
  | nil => simp [markWinners]
  | cons i is ih =>
      have h1 : markWinners angles (i :: is) =
          markWinners (angles.map (fun a =>
            if a.id == i then { a with isWinner := true } else a)) is := by
        simp [markWinners]
      rw [h1, ih, List.map_map]
      refine List.map_congr_left (fun a _ => ?_)
      by_cases h2 : a.id = i <;> by_cases h3 : a.id ∈ is <;>
        simp [Function.comp, h2, h3]

/-- Re-flagging the same selection is a no-op. -/
theorem markWinners_idem (angles : List AngleCard) (ids : List String) :
    markWinners (markWinners angles ids) ids = markWinners angles ids := by
  rw [markWinners_eq_map, markWinners_eq_map, List.map_map]
  refine List.map_congr_left (fun a _ => ?_)
  by_cases h : a.id ∈ ids <;> simp [Function.comp, h]

/-- Claim C9: winner selection only ever sets the winner flag to true:
every run of identifyWinners preserves the card list (same length, same
ids in place), keeps every previously flagged winner flagged, leaves
every card not selected this round entirely unchanged, and re-flagging
the selected set again is a no-op (idempotent). -/
theorem teruxa_c9_winner_flag_monotone (st : DBState) (pid : String)
    (topN : ℕ) (metric : Metric)
    (analyze : List (GeneratedAngle × WinnerMetrics) → List String × List String)
    (st' : DBState) (wa : WinnerAnalysis) (called : Bool)
    (h : identifyWinners st pid topN metric analyze = .ok (st', wa, called)) :
    st'.angles.length = st.angles.length ∧
    (∀ (i : ℕ) (a : AngleCard), st.angles[i]? = some a →
      ∃ a' : AngleCard, st'.angles[i]? = some a' ∧
        a'.id = a.id ∧
        (a.isWinner = true → a'.isWinner = true) ∧
        (a.id ∉ wa.topPerformers.map (fun p => p.angleId) → a' = a)) ∧
    markWinners st'.angles (wa.topPerformers.map (fun p => p.angleId)) =
      st'.angles := by
  unfold identifyWinners at h
  by_cases hp : pid ∈ st.projects
  case neg => rw [if_neg hp] at h; cases h
  case pos =>
  rw [if_pos hp] at h
  dsimp only at h
  by_cases h0 :
      (getTopPerformers st.angles st.perfRows pid metric topN).length = 0
  · rw [if_pos h0] at h
    cases h
    refine ⟨rfl, fun i a ha => ⟨a, ha, rfl, fun hw => hw, fun _ => rfl⟩, ?_⟩
    simp [markWinners]
  · rw [if_neg h0] at h
    cases h
    refine ⟨?_, ?_, ?_⟩
    · rw [markWinners_eq_map]
      simp
    · intro i a ha
      rw [markWinners_eq_map]
      refine ⟨_, by rw [List.getElem?_map, ha]; rfl, ?_, ?_, ?_⟩
      · by_cases hm : a.id ∈
            (getTopPerformers st.angles st.perfRows pid metric topN).map
              (fun p => p.angleId) <;> simp [hm]
      · intro hw
        by_cases hm : a.id ∈
            (getTopPerformers st.angles st.perfRows pid metric topN).map
              (fun p => p.angleId) <;> simp [hm, hw]
      · intro hnm
        simp only [List.map_map] at hnm
        have hnm2 : a.id ∉
            (getTopPerformers st.angles st.perfRows pid metric topN).map
              (fun p => p.angleId) := by
          simpa [Function.comp] using hnm
        simp [hnm2]
    · dsimp only
      rw [List.map_map]
      exact markWinners_idem st.angles _

/-- Witness for C9 on the concrete selection run over `st3`. -/
theorem teruxa_c9_witness :
    st3Marked.angles.length = st3.angles.length ∧
    (∀ (i : ℕ) (a : AngleCard), st3.angles[i]? = some a →
      ∃ a' : AngleCard, st3Marked.angles[i]? = some a' ∧
        a'.id = a.id ∧
        (a.isWinner = true → a'.isWinner = true) ∧
        (a.id ∉ wa3.topPerformers.map (fun p => p.angleId) → a' = a)) ∧
    markWinners st3Marked.angles (wa3.topPerformers.map (fun p => p.angleId)) =
      st3Marked.angles :=
  teruxa_c9_winner_flag_monotone st3 pidP 3 .ctr noAnalyze st3Marked wa3 true
    (by decide)

/-- Claim C7: with no variants flagged as winners in the campaign,
generateIterations fails with the validation (precondition) error,
invokes neither AI capability, and persists nothing (the state is
returned unchanged). -/
theorem teruxa_c7_no_winners_precondition (st : DBState) (pid : String)
    (topN count : ℕ)
    (analyze : List (GeneratedAngle × WinnerMetrics) → List String × List String)
    (generate : List GeneratedAngle → List String → ℕ → List GeneratedAngle)
    (hp : pid ∈ st.projects)
    (hw : st.angles.filter (fun a => a.projectId == pid && a.isWinner) = []) :
    generateIterations st pid topN count analyze generate =
      { state := st, result := .error (.validation msgNoWinners),
        analyzeCalls := 0, generateCalls := 0 } := by
  unfold generateIterations
  rw [if_pos hp]
  have hfw : findWinnersByProjectId st pid = [] := by
    unfold findWinnersByProjectId
    rw [hw]
    rfl
  dsimp only
  rw [hfw]
  simp

/-- Witness for C7: the project of `st3` has one card, not flagged. -/
theorem teruxa_c7_witness :
    generateIterations st3 pidP 3 5 noAnalyze gen5 =
      { state := st3, result := .error (.validation msgNoWinners),
        analyzeCalls := 0, generateCalls := 0 } :=
  teruxa_c7_no_winners_precondition st3 pidP 3 5 noAnalyze gen5
    (by decide) (by decide)

/-- Counterexample to claim C4: with four stored winners and topN = 3,
the pattern-analysis input has 3 winners, so the claim predicts draft 3
is linked to winner 3 mod 3 = 0 of that set (`w3`, the newest); the code
instead indexes the full four-element winner list and links draft 3 to
`w0`. -/
theorem teruxa_c4_counterexample :
    parentOfCreated (generateIterations st4 pidP 3 5 noAnalyze gen5) 3 =
      some ("w0") ∧
    ((findWinnersByProjectId st4 pidP).take 3).length = 3 ∧
    (((findWinnersByProjectId st4 pidP).take 3).getD (3 % 3) default).id =
      "w3" ∧
    ("w0" : String) ≠ "w3" := by
  refine ⟨by decide, by decide, by decide, by decide⟩

theorem buildIterations_length (pid : String) (b : ℕ)
    (w : List AngleCard) (drafts : List GeneratedAngle) (i : ℕ) :
    (buildIterations pid b w drafts i).length = drafts.length := by
  induction drafts generalizing i with
  | nil => rfl
  | cons g gs ih => simp [buildIterations, ih]

theorem buildIterations_getD (pid : String) (b : ℕ)
    (w : List AngleCard) (drafts : List GeneratedAngle) (i j : ℕ)
    (hj : j < drafts.length) :
    (buildIterations pid b w drafts i).getD j default =
      mkIterationAngle pid (b + i + j) (drafts.getD j default)
        (w.getD ((i + j) % w.length) default) := by
  induction drafts generalizing i j with
  | nil => simp at hj
  | cons g gs ih =>
      cases j with
      | zero => simp [buildIterations]
      | succ j =>
          have hj2 : j < gs.length := by simpa using hj
          have := ih (i + 1) j hj2
          simp only [buildIterations, List.getD_cons_succ, this]
          have e1 : b + (i + 1) + j = b + i + (j + 1) := by omega
          have e2 : i + 1 + j = i + (j + 1) := by omega
          rw [e1, e2]

/-- Claim C4 as amended: the round-robin parent of the `j`-th created
draft is winner `j mod totalWinners` of the FULL loaded winner list
(`createdAt` descending, up to the 20-row page limit) — not of the topN
pattern-analysis subset. -/
theorem teruxa_c4_round_robin_full_winner_list (st : DBState)
    (pid : String) (topN count : ℕ)
    (analyze : List (GeneratedAngle × WinnerMetrics) → List String × List String)
    (generate : List GeneratedAngle → List String → ℕ → List GeneratedAngle)
    (hp : pid ∈ st.projects)
    (hw : findWinnersByProjectId st pid ≠ []) :
    ∃ created,
      (generateIterations st pid topN count analyze generate).result =
        .ok created ∧
      ∀ j, j < created.length →
        (created.getD j default).parentAngleId =
          some (((findWinnersByProjectId st pid).getD
            (j % (findWinnersByProjectId st pid).length) default).id) := by
  unfold generateIterations
  rw [if_pos hp]
  have h0 : ¬ (findWinnersByProjectId st pid).length = 0 := by
    simpa [List.length_eq_zero] using hw
  dsimp only
  rw [if_neg h0]
  refine ⟨_, rfl, ?_⟩
  intro j hj
  rw [buildIterations_length] at hj
  rw [buildIterations_getD _ _ _ _ _ _ hj]
  simp [mkIterationAngle]

/-- Witness for C4 (amended) on the four-winner campaign. -/
theorem teruxa_c4_witness :
    ∃ created,
      (generateIterations st4 pidP 3 5 noAnalyze gen5).result =
        .ok created ∧
      ∀ j, j < created.length →
        (created.getD j default).parentAngleId =
          some (((findWinnersByProjectId st4 pidP).getD
            (j % (findWinnersByProjectId st4 pidP).length) default).id) :=
  teruxa_c4_round_robin_full_winner_list st4 pidP 3 5 noAnalyze gen5
    (by decide) (by decide)

/-- Claim C10: the row validator accepts a blank required numeric field
(impressions, clicks, conversions, spend or revenue), coercing it to 0:
validating any record with one of those fields blank gives exactly the
same outcome as validating it with an explicit "0" there, so blankness
is indistinguishable from 0 in the persisted data — and the concrete
all-blank record is accepted with every counter equal to 0. -/
theorem teruxa_c10_blank_numeric_is_zero :
    (∀ r : CSVRecord,
      parseCsvRow { r with impressions := some blankStr } =
        parseCsvRow { r with impressions := some zeroStr } ∧
      parseCsvRow { r with clicks := some blankStr } =
        parseCsvRow { r with clicks := some zeroStr } ∧
      parseCsvRow { r with conversions := some blankStr } =
        parseCsvRow { r with conversions := some zeroStr } ∧
      parseCsvRow { r with spend := some blankStr } =
        parseCsvRow { r with spend := some zeroStr } ∧
      parseCsvRow { r with revenue := some blankStr } =
        parseCsvRow { r with revenue := some zeroStr }) ∧
    parseCsvRow recBlank = .ok rowBlank := by
  refine ⟨fun r => ⟨rfl, rfl, rfl, rfl, rfl⟩, by decide⟩

end Teruxa
